import Mathlib

/-!
# Verification of the holonbase Claude adapter (`images/adapter-claude/adapter.py`)

A shallow embedding of the adapter's logger, session-stream consumption,
workspace baselining and orchestration control flow, with theorems checking
the specified properties against the embedded code.

Conventions: Python `print` calls are modelled as the list of emitted lines;
Python strings are Lean `String`s; optional/`None`-able arguments are
`Option`s; the filesystem read by `log_summary_excerpt` is a lookup function
from paths to file lines.
-/

namespace Holon

/-- The four log tiers (`class LogLevel` in adapter.py). -/
inductive LogLevel where
  | debug
  | info
  | progress
  | minimal
deriving DecidableEq, Repr

/-- The priority table inside `ProgressLogger._should_log`. -/
def levelPriority : LogLevel → Nat
  | .debug => 0
  | .info => 1
  | .progress => 2
  | .minimal => 3

/-- `ProgressLogger` state: the configured threshold and the tool-use counter. -/
structure ProgressLogger where
  log_level : LogLevel
  tool_use_count : Nat
deriving DecidableEq, Repr

/-- `ProgressLogger._should_log`: a message at `level` is emitted iff
`priority(level) >= priority(self.log_level)`. -/
def ProgressLogger.should_log (l : ProgressLogger) (level : LogLevel) : Bool :=
  decide (levelPriority level ≥ levelPriority l.log_level)

/-- `ProgressLogger.debug`: lines printed by the call. -/
def ProgressLogger.debug (l : ProgressLogger) (message : String) : List String :=
  if l.should_log LogLevel.debug then ["[DEBUG] " ++ message] else []

/-- `ProgressLogger.info`: lines printed by the call. -/
def ProgressLogger.info (l : ProgressLogger) (message : String) : List String :=
  if l.should_log LogLevel.info then ["[INFO] " ++ message] else []

/-- `ProgressLogger.progress`: lines printed by the call. -/
def ProgressLogger.progress (l : ProgressLogger) (message : String) : List String :=
  if l.should_log LogLevel.progress then ["[PROGRESS] " ++ message] else []

/-- `ProgressLogger.minimal`: lines printed by the call. -/
def ProgressLogger.minimal (l : ProgressLogger) (message : String) : List String :=
  if l.should_log LogLevel.minimal then ["[PHASE] " ++ message] else []

/-- Dispatch a message tagged with tier `tag` to the logger method of that
tier (the four emitters above). -/
def emitTagged (l : ProgressLogger) (tag : LogLevel) (message : String) : List String :=
  match tag with
  | .debug => l.debug message
  | .info => l.info message
  | .progress => l.progress message
  | .minimal => l.minimal message

/-- `os.path.basename` on POSIX paths: the suffix after the last `'/'`
(the whole string when it has no `'/'`). -/
def basename (filepath : String) : String :=
  String.mk ((filepath.data.reverse.takeWhile (fun c => c != '/')).reverse)

/-- `ProgressLogger._safe_filename`: `"unknown"` for a falsy argument
(`None` or the empty string), otherwise the basename. -/
def safe_filename (filepath : Option String) : String :=
  match filepath with
  | none => "unknown"
  | some s => if s = "" then "unknown" else basename s

/-- Python truthiness of an optional string (the `if f` guard of the
comprehension in `log_tool_use`). -/
def truthyStr : Option String → Bool
  | none => false
  | some s => s != ""

/-- Python `", ".join`. -/
def joinComma : List String → String
  | [] => ""
  | [x] => x
  | x :: y :: rest => x ++ ", " ++ joinComma (y :: rest)

/-- Python truthiness of the optional `files_touched` list: present and
non-empty. -/
def truthyList : Option (List (Option String)) → Bool
  | some (_ :: _) => true
  | _ => false

/-- Python truthiness of the optional `file_count`: present and nonzero. -/
def truthyNat : Option Nat → Bool
  | some (_ + 1) => true
  | _ => false

/-- `ProgressLogger.log_tool_use`: increments the tool-use counter and
returns the updated logger together with the printed lines. `files_touched`
entries are `Option String` so that Python `None` entries are representable;
`file_count` is truthy only when present and nonzero. -/
def ProgressLogger.log_tool_use (l : ProgressLogger) (tool_name : String)
    (files_touched : Option (List (Option String))) (file_count : Option Nat) :
    ProgressLogger × List String :=
  let lines : List String :=
    if l.should_log LogLevel.progress then
      if truthyList files_touched then
        let safe_files := ((files_touched.getD []).filter truthyStr).map safe_filename
        let count_info := Nat.repr safe_files.length ++ " files"
        if safe_files.length ≤ 3 then
          ["[TOOL] " ++ tool_name ++ " → " ++ joinComma safe_files ++ " (" ++ count_info ++ ")"]
        else
          ["[TOOL] " ++ tool_name ++ " → " ++ count_info]
      else if truthyNat file_count then
        ["[TOOL] " ++ tool_name ++ " → " ++ Nat.repr (file_count.getD 0) ++ " items"]
      else
        ["[TOOL] " ++ tool_name]
    else []
  ({ l with tool_use_count := l.tool_use_count + 1 }, lines)

/-- Python `f"{n:2d}"`: the decimal rendering padded on the left to width 2. -/
def pad2 (n : Nat) : String :=
  if n < 10 then " " ++ Nat.repr n else Nat.repr n

/-- Python `str.rstrip()`: drop trailing whitespace. -/
def rstrip (s : String) : String :=
  String.mk ((s.data.reverse.dropWhile Char.isWhitespace).reverse)

/-- `ProgressLogger.log_summary_excerpt`: `fs` is the filesystem, mapping a
path to the file's lines (`readlines`) or `none` when the file is absent.
Returns the printed lines. -/
def ProgressLogger.log_summary_excerpt (l : ProgressLogger)
    (fs : String → Option (List String)) (summary_path : String) (lines : Nat) :
    List String :=
  match fs summary_path with
  | some summary_lines =>
    l.minimal "=== SUMMARY EXCERPT ===" ++
    ((summary_lines.take lines).enum.map
        (fun p => l.minimal (pad2 (p.1 + 1) ++ ": " ++ rstrip p.2))).flatten ++
    (if lines < summary_lines.length then
        l.minimal ("... and " ++ Nat.repr (summary_lines.length - lines) ++ " more lines")
      else []) ++
    l.minimal "=== END SUMMARY ==="
  | none => l.info "[WARNING] Summary file not found"

/-- The filesystem with no readable file at any path. -/
def emptyFs : String → Option (List String) := fun _ => none

/-- Content blocks of an `AssistantMessage` as the stream loop distinguishes
them: `TextBlock`, `ToolUseBlock`, or any other block type. -/
inductive ContentBlock where
  | text (t : String)
  | toolUse (name : String)
  | otherBlock
deriving DecidableEq, Repr

/-- Messages of the session stream as the loop distinguishes them:
`AssistantMessage`, `ResultMessage` (with `is_error` and `subtype`), or any
other message type, which the loop ignores. -/
inductive SessionMessage where
  | assistant (content : List ContentBlock)
  | result (is_error : Bool) (subtype : String)
  | other
deriving DecidableEq, Repr

/-- Whether a message is a `ResultMessage`. -/
def isResult : SessionMessage → Bool
  | .result _ _ => true
  | _ => false

/-- Python's rendering of a boolean inside an f-string. -/
def pyBool : Bool → String
  | true => "True"
  | false => "False"

/-- Rendering of a content block for the evidence log (`str` of the block). -/
def blockRepr : ContentBlock → String
  | .text t => "TextBlock(text=" ++ t ++ ")"
  | .toolUse name => "ToolUseBlock(name=" ++ name ++ ")"
  | .otherBlock => "OtherBlock()"

/-- Rendering of a message for the evidence log (`str(msg)`). -/
def msgRepr : SessionMessage → String
  | .assistant content => "AssistantMessage(content=[" ++ joinComma (content.map blockRepr) ++ "])"
  | .result is_error subtype =>
    "ResultMessage(subtype=" ++ subtype ++ ", is_error=" ++ pyBool is_error ++ ")"
  | .other => "OtherMessage()"

/-- State carried through `run_adapter`'s message loop: the logger, the
verdict flag (`success`, initially `True`), the accumulated assistant text
(`final_output`), the evidence-log lines, and the stdout lines printed. -/
structure StreamState where
  logger : ProgressLogger
  success : Bool
  final_output : String
  evidence : List String
  printed : List String
deriving DecidableEq, Repr

/-- The loop state just before the first message is received
(`success = True`, `final_output = ""`). -/
def initStream (logger : ProgressLogger) : StreamState :=
  { logger := logger, success := true, final_output := "", evidence := [], printed := [] }

/-- One content block of an `AssistantMessage`: a `TextBlock` appends its text
to `final_output`; a `ToolUseBlock` is logged with `log_tool_use(tool_name)`. -/
def stepBlock (st : StreamState) : ContentBlock → StreamState
  | .text t => { st with final_output := st.final_output ++ t }
  | .toolUse name =>
    let r := st.logger.log_tool_use name none none
    { st with logger := r.1, printed := st.printed ++ r.2 }
  | .otherBlock => st

/-- The `async for` message loop of `run_adapter`: every message is first
written to the evidence log, an `AssistantMessage` is folded block by block,
any other non-result message is skipped, and a `ResultMessage` logs the
verdict line, flips `success` on `is_error`, and breaks (the rest of the
stream is never consumed). -/
def consume (st : StreamState) : List SessionMessage → StreamState
  | [] => st
  | msg :: rest =>
    let st' := { st with evidence := st.evidence ++ ["Message: " ++ msgRepr msg] }
    match msg with
    | .assistant blocks => consume (blocks.foldl stepBlock st') rest
    | .result is_error subtype =>
      let line := "Task result: " ++ subtype ++ ", is_error: " ++ pyBool is_error
      let st'' := { st' with printed := st'.printed ++ st'.logger.info line }
      if is_error then { st'' with success := false } else st''
    | .other => consume st' rest

/-- The text a `TextBlock` contributes to `final_output`; other blocks
contribute nothing. -/
def blockText : ContentBlock → String
  | .text t => t
  | .toolUse _ => ""
  | .otherBlock => ""

/-- Concatenation of the text of a message's blocks, in order. -/
def concatTexts : List ContentBlock → String
  | [] => ""
  | b :: bs => blockText b ++ concatTexts bs

/-- The assistant text accumulated over a stream: every `TextBlock`'s text,
in order. -/
def gatherText : List SessionMessage → String
  | [] => ""
  | .assistant blocks :: rest => concatTexts blocks ++ gatherText rest
  | .result _ _ :: rest => gatherText rest
  | .other :: rest => gatherText rest

/-- A commit as the baseline phase produces it: author identity, message and
the committed tree. -/
structure Commit where
  authorName : String
  authorEmail : String
  message : String
  tree : List (String × String)
deriving DecidableEq, Repr

/-- The `.git` state: the commit history and the index (staging area). -/
structure GitRepo where
  commits : List Commit
  index : List (String × String)
deriving DecidableEq, Repr

/-- A workspace: its files (path, content) and its optional `.git` state
(`none` models the absence of a `.git` directory). -/
structure Workspace where
  files : List (String × String)
  git : Option GitRepo
deriving DecidableEq, Repr

/-- Content of the file at `path`, when present. -/
def lookupFile : List (String × String) → String → Option String
  | [], _ => none
  | e :: es, p => if e.1 = p then some e.2 else lookupFile es p

/-- `open(path, "a")` followed by one write: appends to the existing content,
or creates the file. -/
def appendFile : List (String × String) → String → String → List (String × String)
  | [], path, content => [(path, content)]
  | e :: es, path, content =>
    if e.1 = path then (e.1, e.2 ++ content) :: es
    else e :: appendFile es path content

/-- `git config --global user.name` value set before the baseline. -/
def gitUserName : String := "holon-adapter"

/-- `git config --global user.email` value set before the baseline. -/
def gitUserEmail : String := "adapter@holon.local"

/-- The fixed baseline commit message. -/
def baselineMessage : String := "holon-baseline"

/-- The ignore patterns appended to `.gitignore` on a fresh baseline init. -/
def ignoreBlock : String := "\n__pycache__/\n*.pyc\n*.pyo\n.DS_Store\n"

/-- The baseline phase of `run_adapter`: when no `.git` exists, `git init`,
append the ignore block to `.gitignore`, `git add -A` and `git commit -m
"holon-baseline"` under the globally configured identity; when `.git`
already exists, nothing is run. -/
def ensure_baseline (ws : Workspace) : Workspace :=
  match ws.git with
  | some _ => ws
  | none =>
    let files := appendFile ws.files ".gitignore" ignoreBlock
    { files := files,
      git := some { commits := [⟨gitUserName, gitUserEmail, baselineMessage, files⟩],
                    index := files } }

/-- The patch text `git diff --cached --patch --binary --full-index` renders
for a `HEAD` tree and an index; the external git tool's formatting is
modelled as a canonical listing of the entries that differ. -/
def renderDiff (head staged : List (String × String)) : String :=
  joinComma (((staged.filter (fun e => lookupFile head e.1 ≠ some e.2)).map Prod.fst)
    ++ ((head.filter (fun e => lookupFile staged e.1 = none)).map Prod.fst))

/-- The diff phase of `run_adapter`: `git add -A` stages the working tree
into the index, then `git diff --cached` renders the index against `HEAD`
(the last commit). Returns the workspace after the two commands together
with the patch text. -/
def compute_diff (ws : Workspace) : Workspace × String :=
  match ws.git with
  | none => (ws, "")
  | some repo =>
    ({ ws with git := some { repo with index := ws.files } },
      renderDiff ((repo.commits.getLast?.map Commit.tree).getD []) ws.files)

/-- `manifest.json` content: the fatal path writes only `status`, `outcome`
and `error` (`full = false`); the artifact path writes the full manifest with
metadata, duration and the artifact list (`full = true`). -/
structure Manifest where
  status : String
  outcome : String
  error : Option String
  full : Bool
deriving DecidableEq, Repr

/-- The minimal manifest written by the central exception handler. -/
def failureManifest (e : String) : Manifest :=
  { status := "completed", outcome := "failure", error := some e, full := false }

/-- The full manifest written by the artifact phase. -/
def fullManifest (success : Bool) : Manifest :=
  { status := "completed", outcome := if success then "success" else "failure",
    error := none, full := true }

/-- Everything one `run_adapter` invocation observes from its environment:
which input files exist, the workspace, whether each effectful phase raises,
the finite session stream, and the files as the agent leaves them. -/
structure World where
  log_level : LogLevel
  specExists : Bool
  systemPromptExists : Bool
  userPromptExists : Bool
  workspace : Workspace
  baselineRaises : Option String
  sessionRaises : Option String
  streamMsgs : List SessionMessage
  agentFiles : List (String × String)
  artifactRaises : Option String
deriving DecidableEq, Repr

/-- The observable outcome of one `run_adapter` invocation: the process exit
code, the final content of `manifest.json` (when written), the content of
`diff.patch` (when written), and whether `summary.md` and the evidence log
were written. -/
structure RunResult where
  exitCode : Nat
  manifest : Option Manifest
  diffPatch : Option String
  summaryWritten : Bool
  evidenceWritten : Bool
deriving DecidableEq, Repr

/-- Result of the fatal paths outside the `try` block (`sys.exit(1)` on a
missing input file, an uncaught `CalledProcessError` from the baseline):
exit code 1 and no manifest written. -/
def fatalNoManifest : RunResult :=
  { exitCode := 1, manifest := none, diffPatch := none,
    summaryWritten := false, evidenceWritten := false }

/-- Control flow of `run_adapter`: check the three input files (exit 1 when
one is missing), establish the baseline (an exception there is raised outside
the `try` block), then inside the `try` block run the session, consume the
stream and write the artifacts; any exception inside the block writes the
minimal failure manifest and exits 1; otherwise the full bundle is written and
the process exits 0. -/
def run_adapter (w : World) : RunResult :=
  if !w.specExists then fatalNoManifest
  else if !w.systemPromptExists then fatalNoManifest
  else if !w.userPromptExists then fatalNoManifest
  else if w.workspace.git.isNone && w.baselineRaises.isSome then fatalNoManifest
  else
    let ws := ensure_baseline w.workspace
    match w.sessionRaises with
    | some e =>
      { exitCode := 1, manifest := some (failureManifest e), diffPatch := none,
        summaryWritten := false, evidenceWritten := false }
    | none =>
      let st := consume (initStream ⟨w.log_level, 0⟩) w.streamMsgs
      match w.artifactRaises with
      | some e =>
        { exitCode := 1, manifest := some (failureManifest e), diffPatch := none,
          summaryWritten := false, evidenceWritten := true }
      | none =>
        { exitCode := 0,
          manifest := some (fullManifest st.success),
          diffPatch := some (compute_diff { ws with files := w.agentFiles }).2,
          summaryWritten := true,
          evidenceWritten := true }

end Holon

/-- C1: for every threshold tier T and message tier P, the logger emits the
message iff `priority(P) ≥ priority(T)` under Debug=0 < Info=1 < Progress=2 <
Minimal=3; in particular a Minimal-tagged message is emitted at every
threshold and a Debug-tagged one only at threshold Debug. -/
theorem c1_logger_tier_gating :
    (∀ (T P : Holon.LogLevel) (c : Nat) (msg : String),
      Holon.emitTagged ⟨T, c⟩ P msg ≠ [] ↔
        Holon.levelPriority P ≥ Holon.levelPriority T)
    ∧ (∀ (T : Holon.LogLevel) (c : Nat) (msg : String),
      Holon.emitTagged ⟨T, c⟩ Holon.LogLevel.minimal msg ≠ [])
    ∧ (∀ (T : Holon.LogLevel) (c : Nat) (msg : String),
      Holon.emitTagged ⟨T, c⟩ Holon.LogLevel.debug msg ≠ [] ↔ T = Holon.LogLevel.debug)
    ∧ Holon.levelPriority Holon.LogLevel.debug = 0
    ∧ Holon.levelPriority Holon.LogLevel.info = 1
    ∧ Holon.levelPriority Holon.LogLevel.progress = 2
    ∧ Holon.levelPriority Holon.LogLevel.minimal = 3 := by
  refine ⟨?_, ?_, ?_, rfl, rfl, rfl, rfl⟩
  · intro T P c msg
    cases T <;> cases P <;>
      simp [Holon.emitTagged, Holon.ProgressLogger.debug, Holon.ProgressLogger.info,
        Holon.ProgressLogger.progress, Holon.ProgressLogger.minimal,
        Holon.ProgressLogger.should_log, Holon.levelPriority]
  · intro T c msg
    cases T <;>
      simp [Holon.emitTagged, Holon.ProgressLogger.minimal,
        Holon.ProgressLogger.should_log, Holon.levelPriority]
  · intro T c msg
    cases T <;>
      simp [Holon.emitTagged, Holon.ProgressLogger.debug,
        Holon.ProgressLogger.should_log, Holon.levelPriority]

theorem digitChar_ne_slash (n : Nat) : Nat.digitChar n ≠ '/' := by
  by_cases h : n < 16
  · interval_cases n <;> decide
  · have h0 : n ≠ 0 := by omega
    have h1 : n ≠ 1 := by omega
    have h2 : n ≠ 2 := by omega
    have h3 : n ≠ 3 := by omega
    have h4 : n ≠ 4 := by omega
    have h5 : n ≠ 5 := by omega
    have h6 : n ≠ 6 := by omega
    have h7 : n ≠ 7 := by omega
    have h8 : n ≠ 8 := by omega
    have h9 : n ≠ 9 := by omega
    have h10 : n ≠ 10 := by omega
    have h11 : n ≠ 11 := by omega
    have h12 : n ≠ 12 := by omega
    have h13 : n ≠ 13 := by omega
    have h14 : n ≠ 14 := by omega
    have h15 : n ≠ 15 := by omega
    simp only [Nat.digitChar, h0, h1, h2, h3, h4, h5, h6, h7, h8, h9, h10, h11, h12,
      h13, h14, h15, if_false]
    decide

theorem slash_not_mem_toDigitsCore (b fuel n : Nat) (ds : List Char)
    (hds : '/' ∉ ds) : '/' ∉ Nat.toDigitsCore b fuel n ds := by
  induction fuel generalizing n ds with
  | zero => exact hds
  | succ fuel ih =>
    show '/' ∉ (if n / b = 0 then (n % b).digitChar :: ds
      else Nat.toDigitsCore b fuel (n / b) ((n % b).digitChar :: ds))
    split
    · intro h
      rcases List.mem_cons.mp h with h | h
      · exact digitChar_ne_slash _ h.symm
      · exact hds h
    · refine ih _ _ ?_
      intro h
      rcases List.mem_cons.mp h with h | h
      · exact digitChar_ne_slash _ h.symm
      · exact hds h

theorem slash_not_mem_repr (n : Nat) : '/' ∉ (Nat.repr n).data := by
  have h : '/' ∉ Nat.toDigitsCore 10 (n + 1) n [] :=
    slash_not_mem_toDigitsCore 10 (n + 1) n [] (by simp)
  simpa [Nat.repr, Nat.toDigits, List.asString] using h

theorem slash_not_mem_basename (s : String) : '/' ∉ (Holon.basename s).data := by
  intro h
  have h1 : '/' ∈ s.data.reverse.takeWhile (fun c => c != '/') := by
    simpa [Holon.basename] using h
  have h2 := List.mem_takeWhile_imp h1
  simp at h2

theorem slash_not_mem_safe_filename (f : Option String) :
    '/' ∉ (Holon.safe_filename f).data := by
  match f with
  | none => decide
  | some s =>
    by_cases h : s = ""
    · simp only [Holon.safe_filename, h, if_true]
      decide
    · simpa only [Holon.safe_filename, h, if_false] using slash_not_mem_basename s

theorem slash_not_mem_joinComma (xs : List String)
    (hxs : ∀ x ∈ xs, '/' ∉ x.data) : '/' ∉ (Holon.joinComma xs).data := by
  induction xs with
  | nil => intro h; simp [Holon.joinComma] at h
  | cons x xs ih =>
    cases xs with
    | nil => simpa [Holon.joinComma] using hxs x (by simp)
    | cons y rest =>
      intro h
      rw [show Holon.joinComma (x :: y :: rest)
          = x ++ ", " ++ Holon.joinComma (y :: rest) from rfl] at h
      rw [String.data_append, String.data_append] at h
      rcases List.mem_append.mp h with h | h
      · rcases List.mem_append.mp h with h | h
        · exact hxs x (by simp) h
        · exact absurd h (by decide)
      · exact ih (fun z hz => hxs z (by simp [hz])) h

/-- C5: for every call to `log_tool_use` with more than 3 touched paths
(non-empty entries), at a threshold at which Progress-tier lines are emitted,
the logged output is exactly the tool name with the aggregate file count
("<tool> → k files") — no individual path or filename appears. -/
theorem c5_aggregate_count_only (l : Holon.ProgressLogger) (tool_name : String)
    (files : List (Option String)) (fc : Option Nat)
    (hlog : l.should_log Holon.LogLevel.progress = true)
    (hmany : 3 < (files.filter Holon.truthyStr).length) :
    (l.log_tool_use tool_name (some files) fc).2
      = ["[TOOL] " ++ tool_name ++ " → "
          ++ (Nat.repr (files.filter Holon.truthyStr).length ++ " files")] := by
  cases files with
  | nil => simp [List.filter] at hmany
  | cons f0 fs =>
    have hm : (((f0 :: fs).filter Holon.truthyStr).map Holon.safe_filename).length
        = ((f0 :: fs).filter Holon.truthyStr).length := List.length_map _ _
    simp only [Holon.ProgressLogger.log_tool_use, hlog, if_true, Holon.truthyList,
      Option.getD_some, hm]
    rw [if_neg (by omega)]

/-- Witness for C5: one invocation touching 5 files logs
`"[TOOL] Edit → 5 files"` and nothing else. -/
theorem c5_aggregate_count_only_witness :
    (Holon.ProgressLogger.log_tool_use ⟨Holon.LogLevel.progress, 0⟩ "Edit"
        (some [some "a.txt", some "b.txt", some "c.txt", some "d.txt", some "e.txt"]) none).2
      = ["[TOOL] " ++ "Edit" ++ " → "
          ++ (Nat.repr ([some "a.txt", some "b.txt", some "c.txt", some "d.txt",
              some "e.txt"].filter Holon.truthyStr).length ++ " files")] :=
  c5_aggregate_count_only ⟨Holon.LogLevel.progress, 0⟩ "Edit"
    [some "a.txt", some "b.txt", some "c.txt", some "d.txt", some "e.txt"] none
    (by decide) (by decide)

/-- C9: refutation on the code of "for every configured threshold, an absent
summary file makes `log_summary_excerpt` emit a warning". The warning goes
through the Info-tier emitter, so at the thresholds Progress and Minimal
(the default and the one the repository's own test uses) nothing at all is
printed; the warning only appears at thresholds Debug and Info. -/
theorem c9_absent_summary_warning_suppressed :
    Holon.ProgressLogger.log_summary_excerpt ⟨Holon.LogLevel.minimal, 0⟩
        Holon.emptyFs "/non/existent/file.md" 5 = []
    ∧ Holon.ProgressLogger.log_summary_excerpt ⟨Holon.LogLevel.progress, 0⟩
        Holon.emptyFs "/non/existent/file.md" 5 = []
    ∧ Holon.ProgressLogger.log_summary_excerpt ⟨Holon.LogLevel.info, 0⟩
        Holon.emptyFs "/non/existent/file.md" 5
      = ["[INFO] [WARNING] Summary file not found"]
    ∧ Holon.ProgressLogger.log_summary_excerpt ⟨Holon.LogLevel.debug, 0⟩
        Holon.emptyFs "/non/existent/file.md" 5
      = ["[INFO] [WARNING] Summary file not found"] := by
  refine ⟨by decide, by decide, by decide, by decide⟩

/-- C10: falsy entries (`None`, `""`) of `files_touched` are discarded before
display: (a) when some non-empty entry exists, the call behaves exactly as if
only the non-empty entries had been passed, and (b) the printed count and the
more-than-3 cutoff use the number of non-empty entries, not the length of the
raw list. -/
theorem c10_falsy_entries_discarded :
    (∀ (l : Holon.ProgressLogger) (tool_name : String) (files : List (Option String))
        (fc : Option Nat), files.filter Holon.truthyStr ≠ [] →
      l.log_tool_use tool_name (some files) fc
        = l.log_tool_use tool_name (some (files.filter Holon.truthyStr)) fc)
    ∧ (∀ (l : Holon.ProgressLogger) (tool_name : String) (files : List (Option String))
        (fc : Option Nat), l.should_log Holon.LogLevel.progress = true → files ≠ [] →
      (l.log_tool_use tool_name (some files) fc).2
        = if (files.filter Holon.truthyStr).length ≤ 3 then
            ["[TOOL] " ++ tool_name ++ " → "
              ++ Holon.joinComma ((files.filter Holon.truthyStr).map Holon.safe_filename)
              ++ " (" ++ (Nat.repr (files.filter Holon.truthyStr).length ++ " files") ++ ")"]
          else
            ["[TOOL] " ++ tool_name ++ " → "
              ++ (Nat.repr (files.filter Holon.truthyStr).length ++ " files")]) := by
  constructor
  · intro l tool_name files fc hne
    have h1 : Holon.truthyList (some files) = true := by
      cases files with
      | nil => simp [List.filter] at hne
      | cons a as => rfl
    have h2 : Holon.truthyList (some (files.filter Holon.truthyStr)) = true := by
      cases hf : files.filter Holon.truthyStr with
      | nil => exact absurd hf hne
      | cons a as => simp [Holon.truthyList, hf]
    simp only [Holon.ProgressLogger.log_tool_use, h1, h2, if_true, Option.getD_some,
      List.filter_filter, Bool.and_self]
  · intro l tool_name files fc hlog hne
    cases files with
    | nil => exact absurd rfl hne
    | cons a as =>
      have hm : (((a :: as).filter Holon.truthyStr).map Holon.safe_filename).length
          = ((a :: as).filter Holon.truthyStr).length := List.length_map _ _
      simp only [Holon.ProgressLogger.log_tool_use, hlog, if_true, Holon.truthyList,
        Option.getD_some, hm]

theorem slash_not_mem_append {a b : String} (ha : '/' ∉ a.data) (hb : '/' ∉ b.data) :
    '/' ∉ (a ++ b).data := by
  intro h
  rw [String.data_append] at h
  rcases List.mem_append.mp h with h | h
  · exact ha h
  · exact hb h

/-- C6: whatever `log_tool_use` is called with, no logged line ever contains
a path separator (other than one the tool name itself carries): each touched
path contributes at most its final segment (basename), which is
separator-free. -/
theorem c6_only_basenames_logged (l : Holon.ProgressLogger) (tool_name : String)
    (files_touched : Option (List (Option String))) (file_count : Option Nat)
    (line : String)
    (htool : '/' ∉ tool_name.data)
    (hline : line ∈ (l.log_tool_use tool_name files_touched file_count).2) :
    '/' ∉ line.data := by
  have hjc : '/' ∉ (Holon.joinComma
      (((files_touched.getD []).filter Holon.truthyStr).map Holon.safe_filename)).data := by
    refine slash_not_mem_joinComma _ ?_
    intro x hx
    rcases List.mem_map.mp hx with ⟨f, _, rfl⟩
    exact slash_not_mem_safe_filename f
  simp only [Holon.ProgressLogger.log_tool_use] at hline
  by_cases hlog : l.should_log Holon.LogLevel.progress = true
  case neg => simp [hlog] at hline
  case pos =>
  simp only [hlog, if_true] at hline
  by_cases hft : Holon.truthyList files_touched = true
  case pos =>
    simp only [hft, if_true] at hline
    by_cases hlen : (((files_touched.getD []).filter Holon.truthyStr).map
        Holon.safe_filename).length ≤ 3
    case pos =>
      rw [if_pos hlen, List.mem_singleton] at hline
      subst hline
      exact slash_not_mem_append (slash_not_mem_append (slash_not_mem_append
        (slash_not_mem_append (slash_not_mem_append (slash_not_mem_append
          (by decide) htool) (by decide)) hjc) (by decide))
        (slash_not_mem_append (slash_not_mem_repr _) (by decide))) (by decide)
    case neg =>
      rw [if_neg hlen, List.mem_singleton] at hline
      subst hline
      exact slash_not_mem_append (slash_not_mem_append (slash_not_mem_append
        (by decide) htool) (by decide))
        (slash_not_mem_append (slash_not_mem_repr _) (by decide))
  case neg =>
    simp only [hft] at hline
    by_cases hfc : Holon.truthyNat file_count = true
    case pos =>
      simp only [hfc, if_true, Bool.false_eq_true, if_false, List.mem_singleton] at hline
      subst hline
      exact slash_not_mem_append (slash_not_mem_append (slash_not_mem_append
        (slash_not_mem_append (by decide) htool) (by decide)) (slash_not_mem_repr _))
        (by decide)
    case neg =>
      simp only [hfc, Bool.false_eq_true, if_false, List.mem_singleton] at hline
      subst hline
      exact slash_not_mem_append (by decide) htool

/-- Witness for C6: a concrete invocation touching `/etc/passwd` logs only
the basename, and the logged line carries no separator. -/
theorem c6_only_basenames_logged_witness :
    '/' ∉ ("[TOOL] Edit → passwd (1 files)").data :=
  c6_only_basenames_logged ⟨Holon.LogLevel.progress, 0⟩ "Edit" (some [some "/etc/passwd"])
    none "[TOOL] Edit → passwd (1 files)" (by decide) (by decide)

theorem stepBlock_success (st : Holon.StreamState) (b : Holon.ContentBlock) :
    (Holon.stepBlock st b).success = st.success := by
  cases b <;> rfl

theorem foldl_stepBlock_success (blocks : List Holon.ContentBlock) (st : Holon.StreamState) :
    (blocks.foldl Holon.stepBlock st).success = st.success := by
  induction blocks generalizing st with
  | nil => rfl
  | cons b bs ih => rw [List.foldl_cons, ih, stepBlock_success]

theorem consume_stops_at_result (st : Holon.StreamState) (pre post : List Holon.SessionMessage)
    (e : Bool) (s : String) (hpre : pre.all (fun m => !Holon.isResult m) = true) :
    Holon.consume st (pre ++ Holon.SessionMessage.result e s :: post)
      = Holon.consume st (pre ++ [Holon.SessionMessage.result e s]) := by
  induction pre generalizing st with
  | nil => rfl
  | cons m pre ih =>
    simp only [List.all_cons, Bool.and_eq_true] at hpre
    cases m with
    | assistant blocks =>
      simp only [List.cons_append, Holon.consume]
      exact ih _ hpre.2
    | result e' s' => simp [Holon.isResult] at hpre
    | other =>
      simp only [List.cons_append, Holon.consume]
      exact ih _ hpre.2

theorem consume_noResult_success (st : Holon.StreamState) (msgs : List Holon.SessionMessage)
    (h : msgs.all (fun m => !Holon.isResult m) = true) :
    (Holon.consume st msgs).success = st.success := by
  induction msgs generalizing st with
  | nil => rfl
  | cons m ms ih =>
    simp only [List.all_cons, Bool.and_eq_true] at h
    cases m with
    | assistant blocks =>
      simp only [Holon.consume]
      rw [ih _ h.2, foldl_stepBlock_success]
    | result e s => simp [Holon.isResult] at h
    | other =>
      simp only [Holon.consume]
      exact ih _ h.2

theorem consume_result_end_success (st : Holon.StreamState) (pre : List Holon.SessionMessage)
    (e : Bool) (s : String) (hpre : pre.all (fun m => !Holon.isResult m) = true) :
    (Holon.consume st (pre ++ [Holon.SessionMessage.result e s])).success
      = (if e then false else st.success) := by
  induction pre generalizing st with
  | nil => cases e <;> simp [Holon.consume]
  | cons m pre ih =>
    simp only [List.all_cons, Bool.and_eq_true] at hpre
    cases m with
    | assistant blocks =>
      simp only [List.cons_append, Holon.consume, List.append_eq]
      rw [ih _ hpre.2, foldl_stepBlock_success]
    | result e' s' => simp [Holon.isResult] at hpre
    | other =>
      simp only [List.cons_append, Holon.consume]
      exact ih _ hpre.2

theorem foldl_stepBlock_final_output (blocks : List Holon.ContentBlock)
    (st : Holon.StreamState) :
    (blocks.foldl Holon.stepBlock st).final_output
      = st.final_output ++ Holon.concatTexts blocks := by
  induction blocks generalizing st with
  | nil => rw [List.foldl_nil, Holon.concatTexts, String.append_empty]
  | cons b bs ih =>
    rw [List.foldl_cons, ih, Holon.concatTexts]
    cases b with
    | text t => simp [Holon.stepBlock, Holon.blockText, String.append_assoc]
    | toolUse name => simp [Holon.stepBlock, Holon.blockText, String.empty_append]
    | otherBlock => simp [Holon.stepBlock, Holon.blockText, String.empty_append]

theorem consume_noResult_final_output (st : Holon.StreamState)
    (msgs : List Holon.SessionMessage)
    (h : msgs.all (fun m => !Holon.isResult m) = true) :
    (Holon.consume st msgs).final_output
      = st.final_output ++ Holon.gatherText msgs := by
  induction msgs generalizing st with
  | nil => simp [Holon.consume, Holon.gatherText, String.append_empty]
  | cons m ms ih =>
    simp only [List.all_cons, Bool.and_eq_true] at h
    cases m with
    | assistant blocks =>
      simp only [Holon.consume]
      rw [ih _ h.2, foldl_stepBlock_final_output]
      simp [Holon.gatherText, String.append_assoc]
    | result e s => simp [Holon.isResult] at h
    | other =>
      simp only [Holon.consume]
      rw [ih _ h.2]
      simp [Holon.gatherText]

/-- C2: stream consumption stops permanently at the first `ResultMessage` —
the state after consuming the whole stream equals the state after consuming
up to and including that message, whatever follows it — and the verdict is
`success = not is_error` of that first result; a stream with no result
message at all leaves the verdict at its default, success, with
`final_output` holding exactly the assistant text accumulated. -/
theorem c2_terminal_result_semantics :
    (∀ (T : Holon.LogLevel) (pre post : List Holon.SessionMessage) (e : Bool) (s : String),
      pre.all (fun m => !Holon.isResult m) = true →
      Holon.consume (Holon.initStream ⟨T, 0⟩)
          (pre ++ Holon.SessionMessage.result e s :: post)
        = Holon.consume (Holon.initStream ⟨T, 0⟩) (pre ++ [Holon.SessionMessage.result e s])
      ∧ (Holon.consume (Holon.initStream ⟨T, 0⟩)
          (pre ++ Holon.SessionMessage.result e s :: post)).success = !e)
    ∧ (∀ (T : Holon.LogLevel) (msgs : List Holon.SessionMessage),
      msgs.all (fun m => !Holon.isResult m) = true →
      (Holon.consume (Holon.initStream ⟨T, 0⟩) msgs).success = true
      ∧ (Holon.consume (Holon.initStream ⟨T, 0⟩) msgs).final_output
          = Holon.gatherText msgs) := by
  constructor
  · intro T pre post e s hpre
    refine ⟨consume_stops_at_result _ _ _ _ _ hpre, ?_⟩
    rw [consume_stops_at_result _ _ _ _ _ hpre,
      consume_result_end_success _ _ _ _ hpre]
    cases e <;> rfl
  · intro T msgs h
    refine ⟨?_, ?_⟩
    · rw [consume_noResult_success _ _ h]
      rfl
    · rw [consume_noResult_final_output _ _ h]
      exact String.empty_append _

theorem lookupFile_appendFile_ne (files : List (String × String))
    (path content p : String) (hp : p ≠ path) :
    Holon.lookupFile (Holon.appendFile files path content) p
      = Holon.lookupFile files p := by
  induction files with
  | nil =>
    simp only [Holon.appendFile, Holon.lookupFile]
    rw [if_neg (fun h => hp h.symm)]
  | cons e es ih =>
    by_cases h : e.1 = path
    · have hpp : ¬ (path = p) := fun hh => hp hh.symm
      simp only [Holon.appendFile, h, if_true, Holon.lookupFile, hpp, if_false]
    · simp only [Holon.appendFile, h, if_false, Holon.lookupFile, ih]

/-- C7: `ensure_baseline` is idempotent; with existing history it is a no-op;
and starting from a workspace with no history, two calls leave exactly one
baseline commit, authored under the fixed identity
`holon-adapter <adapter@holon.local>` with the fixed message
`"holon-baseline"`. -/
theorem c7_ensure_baseline_idempotent :
    (∀ ws : Holon.Workspace,
      Holon.ensure_baseline (Holon.ensure_baseline ws) = Holon.ensure_baseline ws)
    ∧ (∀ (ws : Holon.Workspace) (repo : Holon.GitRepo), ws.git = some repo →
      Holon.ensure_baseline ws = ws)
    ∧ (∀ ws : Holon.Workspace, ws.git = none →
      ∃ repo : Holon.GitRepo,
        (Holon.ensure_baseline (Holon.ensure_baseline ws)).git = some repo
        ∧ (repo.commits.filter
            (fun c => c.message == Holon.baselineMessage)).length = 1
        ∧ ∀ c ∈ repo.commits,
            c.authorName = Holon.gitUserName ∧ c.authorEmail = Holon.gitUserEmail
              ∧ c.message = Holon.baselineMessage) := by
  refine ⟨?_, ?_, ?_⟩
  · intro ws
    cases hg : ws.git with
    | some repo => simp [Holon.ensure_baseline, hg]
    | none => simp [Holon.ensure_baseline, hg]
  · intro ws repo h
    simp [Holon.ensure_baseline, h]
  · intro ws h
    refine ⟨Holon.GitRepo.mk
        [Holon.Commit.mk Holon.gitUserName Holon.gitUserEmail Holon.baselineMessage
          (Holon.appendFile ws.files ".gitignore" Holon.ignoreBlock)]
        (Holon.appendFile ws.files ".gitignore" Holon.ignoreBlock), ?_, ?_, ?_⟩
    · simp [Holon.ensure_baseline, h]
    · simp [List.filter]
    · intro c hc
      rw [List.mem_singleton] at hc
      subst hc
      exact ⟨rfl, rfl, rfl⟩

/-- C8 counterexample: on a workspace without version-control history that
already contains an (empty) `.gitignore`, establishing the baseline changes
that file's content — the orchestrator does mutate a workspace file outside
the agent session, refuting the claim as stated. -/
theorem c8_workspace_mutation_counterexample :
    Holon.lookupFile (Holon.ensure_baseline ⟨[(".gitignore", "")], none⟩).files ".gitignore"
      ≠ Holon.lookupFile (Holon.Workspace.mk [(".gitignore", "")] none).files ".gitignore" := by
  decide

/-- C8 (amended): diff computation changes no workspace file; baseline
establishment is a no-op when history exists, and on a fresh workspace it
mutates nothing except `.gitignore` (to which it appends the fixed ignore
block, also creating the file when absent); the workspace is never rolled
back. -/
theorem c8_orchestrator_frame :
    (∀ ws : Holon.Workspace, (Holon.compute_diff ws).1.files = ws.files)
    ∧ (∀ (ws : Holon.Workspace) (repo : Holon.GitRepo), ws.git = some repo →
      Holon.ensure_baseline ws = ws)
    ∧ (∀ (ws : Holon.Workspace) (p : String), p ≠ ".gitignore" →
      Holon.lookupFile (Holon.ensure_baseline ws).files p = Holon.lookupFile ws.files p)
    ∧ (∀ ws : Holon.Workspace, ws.git = none →
      Holon.lookupFile (Holon.ensure_baseline ws).files ".gitignore"
        = some ((Holon.lookupFile ws.files ".gitignore").getD "" ++ Holon.ignoreBlock)) := by
  refine ⟨?_, ?_, ?_, ?_⟩
  · intro ws
    cases hg : ws.git with
    | some repo => simp [Holon.compute_diff, hg]
    | none => simp [Holon.compute_diff, hg]
  · intro ws repo h
    simp [Holon.ensure_baseline, h]
  · intro ws p hp
    cases hg : ws.git with
    | some repo => simp [Holon.ensure_baseline, hg]
    | none => simp [Holon.ensure_baseline, hg, lookupFile_appendFile_ne _ _ _ _ hp]
  · intro ws h
    simp only [Holon.ensure_baseline, h]
    induction ws.files with
    | nil => simp [Holon.appendFile, Holon.lookupFile]
    | cons e es ih =>
      by_cases he : e.1 = ".gitignore"
      · simp [Holon.appendFile, he, Holon.lookupFile]
      · simp [Holon.appendFile, he, Holon.lookupFile, ih]

/-- C3 counterexample: with the spec input file missing, `run_adapter`
terminates with exit code 1 (`sys.exit(1)` before the `try` block) but no
manifest of any kind is written — refuting the claim that every fatal path
writes the minimal failure manifest before terminating. -/
theorem c3_missing_input_no_manifest_counterexample :
    (Holon.run_adapter (Holon.World.mk Holon.LogLevel.progress false true true
        (Holon.Workspace.mk [] none) none none [] [] none)).exitCode = 1
    ∧ (Holon.run_adapter (Holon.World.mk Holon.LogLevel.progress false true true
        (Holon.Workspace.mk [] none) none none [] [] none)).manifest = none :=
  ⟨rfl, rfl⟩

/-- C3 (amended): every fatal path exits with code 1, but the minimal failure
manifest `{status: completed, outcome: failure, error: message}` is written
only for exceptions raised inside the `try` block (session connect/query/
stream and artifact writing); a missing input file or a baseline
initialization/commit failure exits 1 with no manifest written at all. -/
theorem c3_fatal_exit_amended :
    (∀ w : Holon.World, w.specExists = false →
      Holon.run_adapter w = Holon.fatalNoManifest)
    ∧ (∀ w : Holon.World, w.systemPromptExists = false →
      Holon.run_adapter w = Holon.fatalNoManifest)
    ∧ (∀ w : Holon.World, w.userPromptExists = false →
      Holon.run_adapter w = Holon.fatalNoManifest)
    ∧ (∀ w : Holon.World, w.workspace.git = none → w.baselineRaises.isSome = true →
      Holon.run_adapter w = Holon.fatalNoManifest)
    ∧ (∀ (w : Holon.World) (e : String), w.specExists = true →
        w.systemPromptExists = true → w.userPromptExists = true →
        (w.workspace.git.isNone && w.baselineRaises.isSome) = false →
        w.sessionRaises = some e →
      (Holon.run_adapter w).exitCode = 1
      ∧ (Holon.run_adapter w).manifest = some (Holon.failureManifest e))
    ∧ (∀ (w : Holon.World) (e : String), w.specExists = true →
        w.systemPromptExists = true → w.userPromptExists = true →
        (w.workspace.git.isNone && w.baselineRaises.isSome) = false →
        w.sessionRaises = none → w.artifactRaises = some e →
      (Holon.run_adapter w).exitCode = 1
      ∧ (Holon.run_adapter w).manifest = some (Holon.failureManifest e)) := by
  refine ⟨?_, ?_, ?_, ?_, ?_, ?_⟩
  · intro w h
    simp [Holon.run_adapter, h]
  · intro w h
    cases hs : w.specExists <;> simp [Holon.run_adapter, hs, h]
  · intro w h
    cases hs : w.specExists <;> cases hy : w.systemPromptExists <;>
      simp [Holon.run_adapter, hs, hy, h]
  · intro w h1 h2
    cases hs : w.specExists <;> cases hy : w.systemPromptExists <;>
      cases hu : w.userPromptExists <;>
      simp [Holon.run_adapter, hs, hy, hu, h1, h2]
  · intro w e h1 h2 h3 hb hsess
    simp [Holon.run_adapter, h1, h2, h3, hb, hsess]
  · intro w e h1 h2 h3 hb hsess hart
    simp [Holon.run_adapter, h1, h2, h3, hb, hsess, hart]

/-- C4: when the stream's first `ResultMessage` has `is_error = true` and no
exception occurs, the run writes the full bundle — the full manifest with
outcome "failure", `diff.patch` computed from the workspace exactly as the
agent left it, `summary.md` and the evidence log — and exits with code 0. -/
theorem c4_reported_failure_full_bundle (w : Holon.World)
    (pre post : List Holon.SessionMessage) (s : String)
    (h1 : w.specExists = true) (h2 : w.systemPromptExists = true)
    (h3 : w.userPromptExists = true)
    (hb : (w.workspace.git.isNone && w.baselineRaises.isSome) = false)
    (hs : w.sessionRaises = none) (ha : w.artifactRaises = none)
    (hstream : w.streamMsgs = pre ++ Holon.SessionMessage.result true s :: post)
    (hpre : pre.all (fun m => !Holon.isResult m) = true) :
    Holon.run_adapter w
      = Holon.RunResult.mk 0 (some (Holon.fullManifest false))
          (some (Holon.compute_diff
            { Holon.ensure_baseline w.workspace with files := w.agentFiles }).2)
          true true := by
  have hsucc : (Holon.consume (Holon.initStream ⟨w.log_level, 0⟩) w.streamMsgs).success
      = false := by
    rw [hstream, consume_stops_at_result _ _ _ _ _ hpre,
      consume_result_end_success _ _ _ _ hpre]
    rfl
  simp [Holon.run_adapter, h1, h2, h3, hb, hs, ha, hsucc]

/-- Witness for C4: a concrete run whose stream reports `is_error = true`
exits 0 with the full bundle and outcome "failure". -/
theorem c4_reported_failure_full_bundle_witness :
    Holon.run_adapter (Holon.World.mk Holon.LogLevel.progress true true true
        (Holon.Workspace.mk [] none) none none
        [Holon.SessionMessage.result true "error_during_execution"]
        [("LICENSE", "MIT")] none)
      = Holon.RunResult.mk 0 (some (Holon.fullManifest false))
          (some (Holon.compute_diff
            { Holon.ensure_baseline (Holon.Workspace.mk [] none) with
                files := [("LICENSE", "MIT")] }).2)
          true true :=
  c4_reported_failure_full_bundle _ [] [] "error_during_execution"
    rfl rfl rfl rfl rfl rfl rfl rfl
